import Mathlib

/-!
Verification of the streaming-client subsystem of the `popup` repository:
the LZW-style decoder and strike-record model (`src/blitzortung.rs`) and the
WebSocket manager/worker state machine (`src/websocket.rs`), embedded shallowly.

The file is organised as definitions first (the embedding of the source code,
plus definitions written from the specification's words for refinement
statements), then theorems.
-/

/-! ## Definitions: LZW decoder (src/blitzortung.rs) -/

namespace Blitzortung

/-- Dictionary model for `HashMap<u32, Vec<char>>`: an association list; lookup
takes the first binding, and insertion prepends (shadowing models overwrite). -/
def dictGet (dict : List (Nat × List Char)) (k : Nat) : Option (List Char) :=
  (dict.find? (fun p => p.1 == k)).map Prod.snd

/-- Insertion into the dictionary model (`HashMap::insert`); the new binding
shadows any older binding for the same key under `dictGet`. -/
def dictInsert (dict : List (Nat × List Char)) (k : Nat) (v : List Char) :
    List (Nat × List Char) :=
  (k, v) :: dict

/-- Mutable state of the loop in `decode` (src/blitzortung.rs:63-90):
the dictionary, `old_phrase`, and the next free `code`. -/
structure DecodeState where
  dictionary : List (Nat × List Char)
  oldPhrase : List Char
  code : Nat
deriving Repr, DecidableEq

/-- One iteration of the `for i in 1..data.len()` loop of `decode`
(src/blitzortung.rs:71-91) on the current character `c`.  Rust's panicking
indexing (`old_phrase[0]`, `phrase[0]`) is embedded as `List.head?`, so the
result is `none` exactly where the Rust code would panic.  Returns the emitted
phrase and the updated state. -/
def decodeStep (st : DecodeState) (c : Char) : Option (List Char × DecodeState) := do
  let currCode := c.toNat
  let phrase ←
    if currCode < 256 then
      some [c]
    else
      match dictGet st.dictionary currCode with
      | some p => some p
      | none => do
          let h ← st.oldPhrase.head?
          some (st.oldPhrase ++ [h])
  let ph ← phrase.head?
  some (phrase, ⟨dictInsert st.dictionary st.code (st.oldPhrase ++ [ph]), phrase, st.code + 1⟩)

/-- Remaining iterations of the decode loop: runs `decodeStep` over `rest` and
concatenates the emitted phrases (the `result.extend(phrase.iter())` calls). -/
def decodeGo (st : DecodeState) (rest : List Char) : Option (List Char) :=
  match rest with
  | [] => some []
  | c :: cs => do
      let (phrase, st') ← decodeStep st c
      let tail ← decodeGo st' cs
      some (phrase ++ tail)

/-- LZW decoder `decode` of src/blitzortung.rs:57-94, embedded on the sequence
of code points (`input.chars()`).  `none` marks a panic of the Rust code;
`some out` means the Rust function returns the string with characters `out`. -/
def decode (input : List Char) : Option (List Char) :=
  match input with
  | [] => some []
  | c :: cs => do
      let tail ← decodeGo ⟨[], [c], 256⟩ cs
      some (c :: tail)

/-- Modelled from the spec (§4.1 Decoder): the resolved phrase for code point
`c` is the single literal when its code is below 256, else the dictionary
phrase, synthesized as the previous phrase plus its own first symbol when the
code is absent from the dictionary. -/
def specPhrase (dict : List (Nat × List Char)) (prev : List Char) (c : Char) : List Char :=
  if c.toNat < 256 then [c]
  else (dictGet dict c.toNat).getD (prev ++ prev.take 1)

/-- Modelled from the spec (§4.1 Decoder), written from its words: a total
incremental LZW expansion.  Each resolved phrase is appended to the output and
the dictionary gains, under the next code, the previous phrase plus the first
symbol of the resolved phrase; the resolved phrase becomes the previous one. -/
def decodeSpecGo (dict : List (Nat × List Char)) (prev : List Char) (nextCode : Nat) :
    List Char → List Char
  | [] => []
  | c :: cs =>
      let phrase := specPhrase dict prev c
      phrase ++ decodeSpecGo (dictInsert dict nextCode (prev ++ phrase.take 1)) phrase
        (nextCode + 1) cs

/-- Modelled from the spec (§4.1 Decoder): empty input gives empty output;
otherwise the first code point is emitted verbatim and seeds the previous
phrase, and the remaining symbols are expanded by `decodeSpecGo` with the
first assigned dictionary code being 256. -/
def decodeSpec (input : List Char) : List Char :=
  match input with
  | [] => []
  | c :: cs => c :: decodeSpecGo [] [c] 256 cs

/-- Invariant carried through the decode loop: the previous phrase and every
dictionary entry are nonempty. -/
def GoodState (st : DecodeState) : Prop :=
  st.oldPhrase ≠ [] ∧ ∀ p ∈ st.dictionary, p.2 ≠ []

end Blitzortung

/-! ## Definitions: JSON value model and serde semantics

The JSON text produced by decompression is modelled at the level of parsed
JSON values.  A number `num v integral` models a JSON number token: when
`integral` is true, serde_json lexes it as an integer (`u64`/`i64`) with value
`v`; otherwise it is a floating literal (fraction/exponent form or an integer
out of 64-bit range), of which the embedding tracks only the integer part `v`,
since no claim depends on float values.  Objects are association lists whose
field lookup takes the first binding. -/

inductive Json where
  | null
  | bool (b : Bool)
  | num (v : Int) (integral : Bool)
  | str (s : String)
  | arr (elems : List Json)
  | obj (fields : List (String × Json))
deriving Repr, BEq

/-- Field access on a JSON object's association list. -/
def lookupField (fields : List (String × Json)) (k : String) : Option Json :=
  (fields.find? (fun p => p.1 == k)).map Prod.snd

/-- Deserialization of a `u64` field (serde_json): succeeds exactly on an
integer-lexed number in `[0, 2^64)`. -/
def Json.asU64 : Json → Option Nat
  | .num v true => if 0 ≤ v ∧ v < 2 ^ 64 then some v.toNat else none
  | _ => none

/-- Deserialization of a `u32` field (serde_json): succeeds exactly on an
integer-lexed number in `[0, 2^32)`. -/
def Json.asU32 : Json → Option Nat
  | .num v true => if 0 ≤ v ∧ v < 2 ^ 32 then some v.toNat else none
  | _ => none

/-- Deserialization of an `i32` field (serde_json): succeeds exactly on an
integer-lexed number in `[-2^31, 2^31)`. -/
def Json.asI32 : Json → Option Int
  | .num v true => if -2 ^ 31 ≤ v ∧ v < 2 ^ 31 then some v else none
  | _ => none

/-- Deserialization of an `isize` field (serde_json, 64-bit target): succeeds
exactly on an integer-lexed number in `[-2^63, 2^63)`. -/
def Json.asISize : Json → Option Int
  | .num v true => if -2 ^ 63 ≤ v ∧ v < 2 ^ 63 then some v else none
  | _ => none

/-- Deserialization of an `f64` field (serde_json): succeeds on any JSON
number; the value is modelled by the number token itself. -/
def Json.asF64 : Json → Option (Int × Bool)
  | .num v b => some (v, b)
  | _ => none

/-- Required struct field: look the key up and decode it; absence is an
error (serde derive for a non-`Option` field). -/
def reqField {α : Type} (fields : List (String × Json)) (k : String)
    (dec : Json → Option α) : Option α :=
  (lookupField fields k).bind dec

/-- Field of type `Option<f64>` (serde derive): an absent key or an explicit
`null` yields `none`; any JSON number yields `some`; anything else errors. -/
def optF64Field (fields : List (String × Json)) (k : String) :
    Option (Option (Int × Bool)) :=
  match lookupField fields k with
  | none => some none
  | some .null => some none
  | some j => (j.asF64).map some

/-- Per-station signal detail `SignalData` of src/blitzortung.rs:44-54. -/
structure SignalData where
  sta : Nat
  time : Nat
  lat : Int × Bool
  lon : Int × Bool
  alt : Int
  status : Nat
deriving Repr, BEq

/-- Strike record `LightningStrike` of src/blitzortung.rs:16-42. -/
structure LightningStrike where
  time : Nat
  lat : Int × Bool
  lon : Int × Bool
  alt : Int × Bool
  pol : Int
  mds : Nat
  mcg : Nat
  status : Nat
  region : Nat
  sig : List SignalData
  delay : Option (Int × Bool)
  lonc : Nat
  latc : Nat
deriving Repr, BEq

/-- Semantics of `#[derive(Deserialize)]` on `SignalData`
(src/blitzortung.rs:44-54): a JSON object whose fields decode at the declared
types; unknown fields are ignored. -/
def SignalData.deserialize : Json → Option SignalData
  | .obj fields => do
      let sta ← reqField fields "sta" Json.asU32
      let time ← reqField fields "time" Json.asU64
      let lat ← reqField fields "lat" Json.asF64
      let lon ← reqField fields "lon" Json.asF64
      let alt ← reqField fields "alt" Json.asISize
      let status ← reqField fields "status" Json.asU32
      some ⟨sta, time, lat, lon, alt, status⟩
  | _ => none

/-- Sequence visitor for `Vec<SignalData>` (serde derive): deserialize the
array elements in order, failing on the first failing element. -/
def deserializeSigList : List Json → Option (List SignalData)
  | [] => some []
  | j :: js => do
      let a ← SignalData.deserialize j
      let as ← deserializeSigList js
      some (a :: as)

/-- Field of type `Vec<SignalData>` (serde derive): the key must be present
and a JSON array, each element deserializing as a `SignalData`. -/
def sigField (fields : List (String × Json)) : Option (List SignalData) :=
  match lookupField fields "sig" with
  | some (.arr elems) => deserializeSigList elems
  | _ => none

/-- Semantics of `#[derive(Deserialize)]` on `LightningStrike`
(src/blitzortung.rs:16-42): a JSON object whose fields decode at the declared
types; `sig` must be a JSON array of `SignalData` objects; `delay` is an
`Option<f64>` field; unknown fields are ignored. -/
def LightningStrike.deserialize : Json → Option LightningStrike
  | .obj fields => do
      let time ← reqField fields "time" Json.asU64
      let lat ← reqField fields "lat" Json.asF64
      let lon ← reqField fields "lon" Json.asF64
      let alt ← reqField fields "alt" Json.asF64
      let pol ← reqField fields "pol" Json.asI32
      let mds ← reqField fields "mds" Json.asU32
      let mcg ← reqField fields "mcg" Json.asU32
      let status ← reqField fields "status" Json.asU32
      let region ← reqField fields "region" Json.asU32
      let sig ← sigField fields
      let delay ← optF64Field fields "delay"
      let lonc ← reqField fields "lonc" Json.asU32
      let latc ← reqField fields "latc" Json.asU32
      some ⟨time, lat, lon, alt, pol, mds, mcg, status, region, sig, delay, lonc, latc⟩
  | _ => none

/-- Check written from the claim's words: a number providing a `u64`. -/
def isU64Num : Json → Bool
  | .num v true => decide (0 ≤ v ∧ v < 2 ^ 64)
  | _ => false

/-- Check written from the claim's words: a number providing a `u32`. -/
def isU32Num : Json → Bool
  | .num v true => decide (0 ≤ v ∧ v < 2 ^ 32)
  | _ => false

/-- Check written from the claim's words: a number providing an `int` (`i32`). -/
def isI32Num : Json → Bool
  | .num v true => decide (-2 ^ 31 ≤ v ∧ v < 2 ^ 31)
  | _ => false

/-- Check written from the claim's words: a number providing a signed integer
(`isize`, 64-bit). -/
def isISizeNum : Json → Bool
  | .num v true => decide (-2 ^ 63 ≤ v ∧ v < 2 ^ 63)
  | _ => false

/-- Check written from the claim's words: a number providing a float. -/
def isFloatNum : Json → Bool
  | .num _ _ => true
  | _ => false

/-- Field check: the object provides field `k` satisfying `chk`. -/
def hasFieldSuch (fields : List (String × Json)) (k : String) (chk : Json → Bool) : Bool :=
  match lookupField fields k with
  | some j => chk j
  | none => false

/-- Written from the claim's words (C8): an object providing `sta` (u32),
`time` (u64), `lat`/`lon` (float), `alt` (signed integer), `status` (u32). -/
def isSignalJson : Json → Bool
  | .obj fields =>
      hasFieldSuch fields "sta" isU32Num &&
      hasFieldSuch fields "time" isU64Num &&
      hasFieldSuch fields "lat" isFloatNum &&
      hasFieldSuch fields "lon" isFloatNum &&
      hasFieldSuch fields "alt" isISizeNum &&
      hasFieldSuch fields "status" isU32Num
  | _ => false

/-- Written from the claim's words (C8): an array field `sig` of signal
objects. -/
def sigFieldCheck (fields : List (String × Json)) : Bool :=
  match lookupField fields "sig" with
  | some (.arr elems) => elems.all isSignalJson
  | _ => false

/-- Written from the claim's words (C8), as stated: the field `delay` (float)
may be absent. -/
def delayClaimCheck (fields : List (String × Json)) : Bool :=
  match lookupField fields "delay" with
  | none => true
  | some j => isFloatNum j

/-- The delay clause as the counterexample forces it to be amended: `delay`
may be absent or JSON `null`, else must be a float. -/
def delayAmendedCheck (fields : List (String × Json)) : Bool :=
  match lookupField fields "delay" with
  | none => true
  | some .null => true
  | some j => isFloatNum j

/-- Written from the claim's words (C8), as stated: a JSON object providing
the numeric fields `time` (u64), `lat`/`lon`/`alt` (float), `pol` (int),
`mds`/`mcg`/`status`/`region` (u32), `lonc`/`latc` (u32), an array field `sig`
of signal objects, where the field `delay` (float) may be absent. -/
def isStrikeJsonClaim : Json → Bool
  | .obj fields =>
      hasFieldSuch fields "time" isU64Num &&
      hasFieldSuch fields "lat" isFloatNum &&
      hasFieldSuch fields "lon" isFloatNum &&
      hasFieldSuch fields "alt" isFloatNum &&
      hasFieldSuch fields "pol" isI32Num &&
      hasFieldSuch fields "mds" isU32Num &&
      hasFieldSuch fields "mcg" isU32Num &&
      hasFieldSuch fields "status" isU32Num &&
      hasFieldSuch fields "region" isU32Num &&
      sigFieldCheck fields &&
      delayClaimCheck fields &&
      hasFieldSuch fields "lonc" isU32Num &&
      hasFieldSuch fields "latc" isU32Num
  | _ => false

/-- The claim amended: as `isStrikeJsonClaim`, except that `delay` may also be
present as JSON `null` (in which case the record's `delay` is `None`). -/
def isStrikeJsonAmended : Json → Bool
  | .obj fields =>
      hasFieldSuch fields "time" isU64Num &&
      hasFieldSuch fields "lat" isFloatNum &&
      hasFieldSuch fields "lon" isFloatNum &&
      hasFieldSuch fields "alt" isFloatNum &&
      hasFieldSuch fields "pol" isI32Num &&
      hasFieldSuch fields "mds" isU32Num &&
      hasFieldSuch fields "mcg" isU32Num &&
      hasFieldSuch fields "status" isU32Num &&
      hasFieldSuch fields "region" isU32Num &&
      sigFieldCheck fields &&
      delayAmendedCheck fields &&
      hasFieldSuch fields "lonc" isU32Num &&
      hasFieldSuch fields "latc" isU32Num
  | _ => false

/-- Well-formedness under which the association-list object model agrees with
serde's map visitor (which rejects duplicate known fields): the top-level keys
are distinct, and so are the keys of every element of a `sig` array. -/
def wellFormedStrikeJson : Json → Bool
  | .obj fields =>
      decide ((fields.map Prod.fst).Nodup) &&
      (match lookupField fields "sig" with
       | some (.arr elems) =>
           elems.all (fun e =>
             match e with
             | .obj efs => decide ((efs.map Prod.fst).Nodup)
             | _ => true)
       | _ => true)
  | _ => true

/-- Concrete strike object whose `delay` field is JSON `null`. -/
def strikeNullDelay : Json :=
  .obj [("time", .num 5 true), ("lat", .num 1 false), ("lon", .num 2 false),
        ("alt", .num 0 true), ("pol", .num 1 true), ("mds", .num 3 true),
        ("mcg", .num 4 true), ("status", .num 0 true), ("region", .num 1 true),
        ("sig", .arr []), ("delay", .null), ("lonc", .num 0 true),
        ("latc", .num 0 true)]

/-- Concrete strike object with all fields present, `delay` a float, and one
signal element. -/
def strikeFull : Json :=
  .obj [("time", .num 1700000000000000 true), ("lat", .num 45 false),
        ("lon", .num 9 false), ("alt", .num 0 true), ("pol", .num (-1) true),
        ("mds", .num 3 true), ("mcg", .num 4 true), ("status", .num 0 true),
        ("region", .num 1 true),
        ("sig", .arr [.obj [("sta", .num 7 true), ("time", .num 123456789 true),
                            ("lat", .num 44 false), ("lon", .num 8 false),
                            ("alt", .num (-2) true), ("status", .num 0 true)]]),
        ("delay", .num 2 false), ("lonc", .num 0 true), ("latc", .num 0 true)]

/-! ## Definitions: WebSocket manager and worker (src/websocket.rs) -/

/-- Payload bytes of an envelope (`Vec<u8>` in `WebSocketMessage`):
`bytes s` stands for the UTF-8 bytes of `s` (`String::into_bytes`), and
`json j` for the bytes `serde_json::to_vec` produces for the value `j`. -/
inductive Payload where
  | bytes (s : String)
  | json (j : Json)
deriving Repr, BEq

/-- Envelope `WebSocketMessage` of src/websocket.rs:11-16. -/
structure WebSocketMessage where
  mtype : String
  payload : Payload
  ts : Nat
deriving Repr, BEq

/-- Command `WebSocketCommand` of src/websocket.rs:24-30; raw byte payloads
are modelled as lists of byte values. -/
inductive WebSocketCommand where
  | connect (url : String)
  | disconnect
  | send (message : WebSocketMessage)
  | sendRaw (payload : List Nat)
deriving Repr, BEq

namespace WebSocketManager

/-- State of an mpsc channel as seen by its sender: `some q` is an open
channel holding queue `q`; `none` means the receiver was dropped, in which
case `send` returns an error that the Manager only logs. -/
def channelSend {α : Type} (ch : Option (List α)) (x : α) : Option (List α) :=
  match ch with
  | some q => some (q ++ [x])
  | none => none

/-- Manager `connect` (src/websocket.rs:55-59): enqueue a `Connect` command;
a channel-send failure is logged, never returned. -/
def connect (ch : Option (List WebSocketCommand)) (url : String) :
    Option (List WebSocketCommand) :=
  channelSend ch (.connect url)

/-- Manager `disconnect` (src/websocket.rs:61-65). -/
def disconnect (ch : Option (List WebSocketCommand)) : Option (List WebSocketCommand) :=
  channelSend ch .disconnect

/-- Manager `send_message` (src/websocket.rs:67-71). -/
def send_message (ch : Option (List WebSocketCommand)) (message : WebSocketMessage) :
    Option (List WebSocketCommand) :=
  channelSend ch (.send message)

/-- Manager `send_raw` (src/websocket.rs:73-77). -/
def send_raw (ch : Option (List WebSocketCommand)) (payload : List Nat) :
    Option (List WebSocketCommand) :=
  channelSend ch (.sendRaw payload)

/-- Manager `try_recv_message` (src/websocket.rs:79-81): `self.rx.try_recv().ok()`;
returns the received envelope (or `none` on an empty or closed channel) and
the remaining channel state. -/
def try_recv_message (ch : Option (List WebSocketMessage)) :
    Option WebSocketMessage × Option (List WebSocketMessage) :=
  match ch with
  | none => (none, none)
  | some [] => (none, some [])
  | some (m :: rest) => (some m, some rest)

end WebSocketManager

namespace WebSocketWorker

/-- Worker-owned connection state (src/websocket.rs:88-92): `connection` is
`some sock` when a socket is held, `none` when disconnected.  Sockets are
identified by an abstract handle. -/
structure WorkerState where
  connection : Option Nat
deriving Repr, BEq

/-- Write performed on the socket.  `sendText m` stands for
`Message::Text(serde_json::to_string(&m))` (serialization of this struct is
infallible, so the dead error branch at src/websocket.rs:256-258 has no
counterpart); `sendBinary` for `Message::Binary`; `pong` for the automatic
ping reply; `close` for `ws_stream.close(None)`. -/
inductive WriteOp where
  | sendText (message : WebSocketMessage)
  | sendBinary (payload : List Nat)
  | pong (data : List Nat)
  | close (sock : Nat)
deriving Repr, BEq

/-- Result of a `connect_async` handshake attempt, supplied by the
environment. -/
inductive ConnectOutcome where
  | success (sock : Nat)
  | failure (err : String)
deriving Repr, BEq

/-- Envelope sent on a successful handshake (src/websocket.rs:172-184). -/
def connectionStatusConnected (url : String) (now : Nat) : WebSocketMessage :=
  ⟨"connection_status", .json (.obj [("status", .str "connected"), ("url", .str url)]), now⟩

/-- Envelope sent on a failed handshake (src/websocket.rs:193-206). -/
def connectionStatusFailed (err url : String) (now : Nat) : WebSocketMessage :=
  ⟨"connection_status",
    .json (.obj [("status", .str "failed"), ("error", .str err), ("url", .str url)]), now⟩

/-- Envelope sent on disconnection (src/websocket.rs:226-237). -/
def connectionStatusDisconnected (now : Nat) : WebSocketMessage :=
  ⟨"connection_status", .json (.obj [("status", .str "disconnected")]), now⟩

/-- Worker `connect` (src/websocket.rs:161-216): on success the socket is
installed and a connected-status envelope emitted; on failure the state is
left untouched and a failed-status envelope carrying the error text emitted.
Returns the new state, the envelopes emitted, and the socket writes made. -/
def connect (st : WorkerState) (url : String) (outcome : ConnectOutcome) (now : Nat) :
    WorkerState × List WebSocketMessage × List WriteOp :=
  match outcome with
  | .success sock => (⟨some sock⟩, [connectionStatusConnected url now], [])
  | .failure err => (st, [connectionStatusFailed err url now], [])

/-- Worker `disconnect` (src/websocket.rs:218-243): if a socket is held, take
it, close it (errors logged), and emit a disconnected-status envelope;
otherwise do nothing. -/
def disconnect (st : WorkerState) (now : Nat) :
    WorkerState × List WebSocketMessage × List WriteOp :=
  match st.connection with
  | some sock => (⟨none⟩, [connectionStatusDisconnected now], [.close sock])
  | none => (st, [], [])

/-- Worker `send_message` (src/websocket.rs:245-263): serialize and write when
connected (write errors logged); otherwise only log. -/
def send_message (st : WorkerState) (message : WebSocketMessage) :
    WorkerState × List WebSocketMessage × List WriteOp :=
  match st.connection with
  | some _ => (st, [], [.sendText message])
  | none => (st, [], [])

/-- Worker `send_raw` (src/websocket.rs:265-273): write the raw bytes as a
binary frame when connected (result only logged); otherwise do nothing. -/
def send_raw (st : WorkerState) (payload : List Nat) :
    WorkerState × List WebSocketMessage × List WriteOp :=
  match st.connection with
  | some _ => (st, [], [.sendBinary payload])
  | none => (st, [], [])

/-- Inbound frame (`tungstenite::Message`). -/
inductive Frame where
  | text (t : String)
  | binary (data : List Nat)
  | ping (data : List Nat)
  | pong (data : List Nat)
  | close
  | frame
deriving Repr, BEq

/-- Standard base64 alphabet (`base64::engine::general_purpose::STANDARD`). -/
def base64Alphabet : List Char :=
  "ABCDEFGHIJKLMNOPQRSTUVWXYZabcdefghijklmnopqrstuvwxyz0123456789+/".toList

/-- Base64 digit for a 6-bit value. -/
def base64Char (n : Nat) : Char := base64Alphabet.getD n '='

/-- Base64 encoding of a byte sequence (standard alphabet, `=` padding). -/
def base64Encode : List Nat → List Char
  | [] => []
  | [b0] => [base64Char (b0 / 4), base64Char (b0 % 4 * 16), '=', '=']
  | [b0, b1] => [base64Char (b0 / 4), base64Char (b0 % 4 * 16 + b1 / 16),
                 base64Char (b1 % 16 * 4), '=']
  | b0 :: b1 :: b2 :: rest =>
      base64Char (b0 / 4) :: base64Char (b0 % 4 * 16 + b1 / 16) ::
      base64Char (b1 % 16 * 4 + b2 / 64) :: base64Char (b2 % 64) :: base64Encode rest

/-- Worker `handle_incoming_message` (src/websocket.rs:275-344).  The JSON
parser `serde_json::from_str::<WebSocketMessage>` is taken as the parameter
`parse`: a text frame parsing as a structured envelope is forwarded as-is,
otherwise it is wrapped in a `raw_text` envelope whose payload is the text's
bytes; a binary frame is wrapped as a `binary` envelope with size and base64
data; a ping is answered with a pong when connected; pong, close and raw
frames are only logged. -/
def handle_incoming_message (parse : String → Option WebSocketMessage)
    (st : WorkerState) (msg : Frame) (now : Nat) :
    WorkerState × List WebSocketMessage × List WriteOp :=
  match msg with
  | .text t =>
      match parse t with
      | some wsMessage => (st, [wsMessage], [])
      | none => (st, [⟨"raw_text", .bytes t, now⟩], [])
  | .binary data =>
      (st, [⟨"binary",
             .json (.obj [("size", .num data.length true),
                          ("data", .str (String.mk (base64Encode data)))]), now⟩], [])
  | .ping data =>
      match st.connection with
      | some _ => (st, [], [.pong data])
      | none => (st, [], [])
  | .pong _ => (st, [], [])
  | .close => (st, [], [])
  | .frame => (st, [], [])

/-- Command together with the I/O outcome the environment supplies for it. -/
inductive CmdEvent where
  | connect (url : String) (outcome : ConnectOutcome)
  | disconnect
  | send (message : WebSocketMessage)
  | sendRaw (payload : List Nat)
deriving Repr, BEq

/-- Dispatch of one received command in the loop (src/websocket.rs:111-126). -/
def handleCmd (st : WorkerState) (c : CmdEvent) (now : Nat) :
    WorkerState × List WebSocketMessage × List WriteOp :=
  match c with
  | .connect url outcome => connect st url outcome now
  | .disconnect => disconnect st now
  | .send m => send_message st m
  | .sendRaw p => send_raw st p

/-- Outcome of the bounded wait on `ws_stream.next()`
(src/websocket.rs:130-153): a frame (`Ok(Some(Ok(msg)))`), a read error
(`Ok(Some(Err(e)))`), end of stream (`Ok(None)`, the socket was closed by the
peer), or a timeout (`Err(_)`). -/
inductive StreamEvent where
  | frame (f : Frame)
  | readError (e : String)
  | closed
  | timeout
deriving Repr, BEq

/-- Handling of one stream-wait outcome in the loop (src/websocket.rs:131-153):
a frame goes to `handle_incoming_message`; a read error or end of stream
triggers `disconnect`; a timeout does nothing. -/
def handleStream (parse : String → Option WebSocketMessage) (st : WorkerState)
    (ev : StreamEvent) (now : Nat) :
    WorkerState × List WebSocketMessage × List WriteOp :=
  match ev with
  | .frame f => handle_incoming_message parse st f now
  | .readError _ => disconnect st now
  | .closed => disconnect st now
  | .timeout => (st, [], [])

/-- Consecutive loop iterations with an empty command queue, seen through
their stream events: the stream is polled only while a socket is held
(src/websocket.rs:129, the `if let Some(ref mut ws_stream)` guard). -/
def handleStreamSeq (parse : String → Option WebSocketMessage) (st : WorkerState)
    (evs : List StreamEvent) (now : Nat) :
    WorkerState × List WebSocketMessage × List WriteOp :=
  match evs with
  | [] => (st, [], [])
  | ev :: rest =>
      match st.connection with
      | none => (st, [], [])
      | some _ =>
          let r := handleStream parse st ev now
          let q := handleStreamSeq parse r.1 rest now
          (q.1, r.2.1 ++ q.2.1, r.2.2 ++ q.2.2)

/-- Observable scheduling event of one loop iteration. -/
inductive LoopEvent where
  | appliedCmd (c : CmdEvent)
  | processedStream (ev : StreamEvent)
deriving Repr, BEq

/-- The `while let Ok(cmd) = self.cmd_rx.try_recv()` drain
(src/websocket.rs:111-126): applies every queued command in queue order,
accumulating emitted envelopes, socket writes, and the scheduling trace. -/
def drainCmds (st : WorkerState) (cmds : List CmdEvent) (now : Nat) :
    WorkerState × List WebSocketMessage × List WriteOp × List LoopEvent :=
  match cmds with
  | [] => (st, [], [], [])
  | c :: rest =>
      let r := handleCmd st c now
      let q := drainCmds r.1 rest now
      (q.1, r.2.1 ++ q.2.1, r.2.2 ++ q.2.2.1, .appliedCmd c :: q.2.2.2)

/-- One iteration of the worker loop (src/websocket.rs:109-158): drain all
queued commands, then — only if still connected — wait for and handle at most
one stream event; when disconnected the loop just sleeps. -/
def runIteration (parse : String → Option WebSocketMessage) (st : WorkerState)
    (cmds : List CmdEvent) (ev : StreamEvent) (now : Nat) :
    WorkerState × List WebSocketMessage × List WriteOp × List LoopEvent :=
  let q := drainCmds st cmds now
  match q.1.connection with
  | some _ =>
      let r := handleStream parse q.1 ev now
      (r.1, q.2.1 ++ r.2.1, q.2.2.1 ++ r.2.2, q.2.2.2 ++ [.processedStream ev])
  | none => q

/-- Error field carried by an envelope's JSON payload, if any. -/
def payloadErrorField (m : WebSocketMessage) : Option Json :=
  match m.payload with
  | .json (.obj fields) => lookupField fields "error"
  | _ => none

end WebSocketWorker

/-! ## Theorems: decoder (C1, C2, C9) -/

namespace Blitzortung

theorem dictGet_nonempty {dict : List (Nat × List Char)} {k : Nat} {p : List Char}
    (hd : ∀ q ∈ dict, q.2 ≠ []) (h : dictGet dict k = some p) : p ≠ [] := by
  unfold dictGet at h
  rcases Option.map_eq_some'.mp h with ⟨q, hq, rfl⟩
  exact hd q (List.mem_of_find?_eq_some hq)

theorem specPhrase_ne_nil {dict : List (Nat × List Char)} {prev : List Char}
    (hprev : prev ≠ []) (hdict : ∀ p ∈ dict, p.2 ≠ []) (c : Char) :
    specPhrase dict prev c ≠ [] := by
  unfold specPhrase
  by_cases hc : c.toNat < 256
  · simp [hc]
  · simp only [hc, if_false]
    cases hlook : dictGet dict c.toNat with
    | some p => simpa using dictGet_nonempty hdict hlook
    | none => simpa using hprev

theorem decodeStep_eq {st : DecodeState} (hst : GoodState st) (c : Char) :
    decodeStep st c =
      some (specPhrase st.dictionary st.oldPhrase c,
        ⟨dictInsert st.dictionary st.code
            (st.oldPhrase ++ (specPhrase st.dictionary st.oldPhrase c).take 1),
          specPhrase st.dictionary st.oldPhrase c, st.code + 1⟩) := by
  obtain ⟨hprev, hdict⟩ := hst
  obtain ⟨p0, prest, hp⟩ : ∃ p0 prest, st.oldPhrase = p0 :: prest := by
    cases h : st.oldPhrase with
    | nil => exact absurd h hprev
    | cons a l => exact ⟨a, l, rfl⟩
  by_cases hc : c.toNat < 256
  · simp [decodeStep, specPhrase, hc]
  · cases hlook : dictGet st.dictionary c.toNat with
    | some p =>
        obtain ⟨q0, qrest, hq⟩ : ∃ q0 qrest, p = q0 :: qrest := by
          cases h : p with
          | nil => exact absurd h (dictGet_nonempty hdict hlook)
          | cons a l => exact ⟨a, l, rfl⟩
        simp [decodeStep, specPhrase, hc, hlook, hq]
    | none =>
        simp [decodeStep, specPhrase, hc, hlook, hp]

theorem goodState_next {st : DecodeState} (hst : GoodState st) (c : Char) :
    GoodState ⟨dictInsert st.dictionary st.code
        (st.oldPhrase ++ (specPhrase st.dictionary st.oldPhrase c).take 1),
      specPhrase st.dictionary st.oldPhrase c, st.code + 1⟩ := by
  obtain ⟨hprev, hdict⟩ := hst
  refine ⟨specPhrase_ne_nil hprev hdict c, ?_⟩
  intro q hq
  rcases List.mem_cons.mp hq with rfl | hq
  · exact fun h => hprev (List.append_eq_nil.mp h).1
  · exact hdict q hq

theorem decodeGo_eq_spec {st : DecodeState} (hst : GoodState st) (rest : List Char) :
    decodeGo st rest = some (decodeSpecGo st.dictionary st.oldPhrase st.code rest) := by
  induction rest generalizing st with
  | nil => simp [decodeGo, decodeSpecGo]
  | cons c cs ih =>
      rw [decodeGo, decodeStep_eq hst]
      rw [decodeSpecGo]
      simp only [Option.bind_eq_bind, Option.some_bind, ih (goodState_next hst c)]

theorem decodeSpecGo_literal (dict : List (Nat × List Char)) (prev : List Char)
    (code : Nat) (cs : List Char) (h : ∀ c ∈ cs, c.toNat < 256) :
    decodeSpecGo dict prev code cs = cs := by
  induction cs generalizing dict prev code with
  | nil => rfl
  | cons c cs ih =>
      have hc : c.toNat < 256 := h c (by simp)
      rw [decodeSpecGo]
      simp only [specPhrase, hc, if_true]
      rw [ih _ _ _ (fun d hd => h d (by simp [hd]))]
      rfl

/-- C1: the decoder conforms to the incremental LZW expansion of the spec:
`decode` of the source equals (as `some`) the expansion `decodeSpec` written
from the spec's words — empty input maps to empty output; the first code point
is emitted verbatim and seeds the previous phrase; each subsequent code point
resolves to the literal (below 256) or the dictionary phrase (synthesized as
previous phrase plus its own first symbol when absent), which is appended to
the output; the dictionary gains, under the next code starting at 256, the
previous phrase plus the first symbol of the resolved phrase; and the resolved
phrase becomes the previous phrase. -/
theorem decode_refines_spec (input : List Char) :
    decode input = some (decodeSpec input) := by
  cases input with
  | nil => simp [decode, decodeSpec]
  | cons c cs =>
      have hg : GoodState ⟨[], [c], 256⟩ := ⟨by simp, by simp⟩
      simp [decode, decodeSpec, decodeGo_eq_spec hg cs]

/-- C2: `decode` never panics: for every input there is an output string; in
particular every phrase indexing and dictionary access of the source is in
bounds (a panic is embedded as `none`), including the self-referential case of
a second symbol equal to the not-yet-assigned code 256, and malformed input
still decodes to some string. -/
theorem decode_total (input : List Char) :
    ∃ output, decode input = some output := by
  cases input with
  | nil => exact ⟨[], rfl⟩
  | cons c cs =>
      have hg : GoodState ⟨[], [c], 256⟩ := ⟨by simp, by simp⟩
      refine ⟨c :: decodeSpecGo [] [c] 256 cs, ?_⟩
      simp [decode, decodeGo_eq_spec hg cs]

/-- C9: on input all of whose code points are below 256, `decode` is the
identity (it returns the input unchanged). -/
theorem decode_literal_identity (input : List Char) (h : ∀ c ∈ input, c.toNat < 256) :
    decode input = some input := by
  cases input with
  | nil => rfl
  | cons c cs =>
      have hg : GoodState ⟨[], [c], 256⟩ := ⟨by simp, by simp⟩
      have hcs : ∀ d ∈ cs, d.toNat < 256 := fun d hd => h d (by simp [hd])
      simp [decode, decodeGo_eq_spec hg cs, decodeSpecGo_literal [] [c] 256 cs hcs]

/-- Witness for C9 at the concrete literal-only input "ab". -/
theorem decode_literal_identity_witness :
    (∀ c ∈ ['a', 'b'], c.toNat < 256) ∧ decode ['a', 'b'] = some ['a', 'b'] :=
  ⟨by decide, decode_literal_identity ['a', 'b'] (by decide)⟩

example : decode ['a', 'b', Char.ofNat 256] = some ['a', 'b', 'a', 'b'] := by decide

example : decode ['a', Char.ofNat 256] = some ['a', 'a', 'a'] := by decide

end Blitzortung

/-! ## Theorems: strike-record deserialization (C8) -/

theorem isSome_ite_decide {A : Type} (P : Prop) [Decidable P] (x : A) :
    (if P then some x else none).isSome = decide P := by
  by_cases h : P <;> simp [h]

theorem asU64_isSome (j : Json) : (Json.asU64 j).isSome = isU64Num j := by
  cases j <;> try rfl
  case num v b =>
    cases b
    · rfl
    · exact isSome_ite_decide _ _

theorem asU32_isSome (j : Json) : (Json.asU32 j).isSome = isU32Num j := by
  cases j <;> try rfl
  case num v b =>
    cases b
    · rfl
    · exact isSome_ite_decide _ _

theorem asI32_isSome (j : Json) : (Json.asI32 j).isSome = isI32Num j := by
  cases j <;> try rfl
  case num v b =>
    cases b
    · rfl
    · exact isSome_ite_decide _ _

theorem asISize_isSome (j : Json) : (Json.asISize j).isSome = isISizeNum j := by
  cases j <;> try rfl
  case num v b =>
    cases b
    · rfl
    · exact isSome_ite_decide _ _

theorem asF64_isSome (j : Json) : (Json.asF64 j).isSome = isFloatNum j := by
  cases j <;> rfl

theorem hasFieldSuch_eq_isSome {α : Type} {dec : Json → Option α} {chk : Json → Bool}
    (hdc : ∀ j, (dec j).isSome = chk j) (fields : List (String × Json)) (k : String) :
    hasFieldSuch fields k chk = (reqField fields k dec).isSome := by
  unfold hasFieldSuch reqField
  cases lookupField fields k <;> simp [hdc]

theorem hasU64_eq (fields : List (String × Json)) (k : String) :
    hasFieldSuch fields k isU64Num = (reqField fields k Json.asU64).isSome :=
  hasFieldSuch_eq_isSome asU64_isSome fields k

theorem hasU32_eq (fields : List (String × Json)) (k : String) :
    hasFieldSuch fields k isU32Num = (reqField fields k Json.asU32).isSome :=
  hasFieldSuch_eq_isSome asU32_isSome fields k

theorem hasI32_eq (fields : List (String × Json)) (k : String) :
    hasFieldSuch fields k isI32Num = (reqField fields k Json.asI32).isSome :=
  hasFieldSuch_eq_isSome asI32_isSome fields k

theorem hasISize_eq (fields : List (String × Json)) (k : String) :
    hasFieldSuch fields k isISizeNum = (reqField fields k Json.asISize).isSome :=
  hasFieldSuch_eq_isSome asISize_isSome fields k

theorem hasFloat_eq (fields : List (String × Json)) (k : String) :
    hasFieldSuch fields k isFloatNum = (reqField fields k Json.asF64).isSome :=
  hasFieldSuch_eq_isSome asF64_isSome fields k

theorem sig_deserialize_isSome (j : Json) :
    (SignalData.deserialize j).isSome = isSignalJson j := by
  cases j <;> try rfl
  case obj fields =>
    simp only [SignalData.deserialize, isSignalJson, hasU32_eq, hasU64_eq, hasFloat_eq,
      hasISize_eq, Option.bind_eq_bind]
    cases reqField fields "sta" Json.asU32 <;>
      cases reqField fields "time" Json.asU64 <;>
      cases reqField fields "lat" Json.asF64 <;>
      cases reqField fields "lon" Json.asF64 <;>
      cases reqField fields "alt" Json.asISize <;>
      cases reqField fields "status" Json.asU32 <;>
      simp

theorem deserializeSigList_isSome (elems : List Json) :
    (deserializeSigList elems).isSome = elems.all isSignalJson := by
  induction elems with
  | nil => rfl
  | cons j js ih =>
      rw [deserializeSigList, List.all_cons, ← sig_deserialize_isSome j, ← ih]
      cases SignalData.deserialize j with
      | none => simp
      | some a => cases deserializeSigList js <;> simp

theorem sigFieldCheck_eq (fields : List (String × Json)) :
    sigFieldCheck fields = (sigField fields).isSome := by
  unfold sigFieldCheck sigField
  cases lookupField fields "sig" with
  | none => rfl
  | some j => cases j <;> simp [deserializeSigList_isSome]

theorem delayAmendedCheck_eq (fields : List (String × Json)) :
    delayAmendedCheck fields = (optF64Field fields "delay").isSome := by
  unfold delayAmendedCheck optF64Field
  cases lookupField fields "delay" with
  | none => rfl
  | some j => cases j <;> rfl

/-- C8 counterexample: a strike object whose `delay` field is JSON `null`
deserializes successfully, while the claim's condition (delay absent or a
float) rejects it, so the stated equivalence fails at this input. -/
theorem strike_claim_counterexample :
    (LightningStrike.deserialize strikeNullDelay).isSome = true ∧
      isStrikeJsonClaim strikeNullDelay = false := by
  constructor <;> rfl

/-- C8 (amended): on well-formed (duplicate-free) objects — where the
association-list model coincides with serde's map visitor — deserializing into
a `LightningStrike` succeeds exactly when the value is a JSON object providing
the numeric fields `time` (u64), `lat`/`lon`/`alt` (float), `pol` (int),
`mds`/`mcg`/`status`/`region` (u32), `lonc`/`latc` (u32), and an array field
`sig` of objects each providing `sta` (u32), `time` (u64), `lat`/`lon`
(float), `alt` (signed integer), `status` (u32); the field `delay` (float)
may be absent or JSON `null`, in which case the record's `delay` is `None`. -/
theorem strike_deserialize_iff (j : Json) (h : wellFormedStrikeJson j = true) :
    (LightningStrike.deserialize j).isSome = isStrikeJsonAmended j := by
  cases j <;> try rfl
  case obj fields =>
    simp only [LightningStrike.deserialize, isStrikeJsonAmended, hasU64_eq, hasU32_eq,
      hasI32_eq, hasFloat_eq, sigFieldCheck_eq, delayAmendedCheck_eq]
    cases reqField fields "time" Json.asU64 with
    | none => rfl
    | some v0 =>
      cases reqField fields "lat" Json.asF64 with
      | none => rfl
      | some v1 =>
        cases reqField fields "lon" Json.asF64 with
        | none => rfl
        | some v2 =>
          cases reqField fields "alt" Json.asF64 with
          | none => rfl
          | some v3 =>
            cases reqField fields "pol" Json.asI32 with
            | none => rfl
            | some v4 =>
              cases reqField fields "mds" Json.asU32 with
              | none => rfl
              | some v5 =>
                cases reqField fields "mcg" Json.asU32 with
                | none => rfl
                | some v6 =>
                  cases reqField fields "status" Json.asU32 with
                  | none => rfl
                  | some v7 =>
                    cases reqField fields "region" Json.asU32 with
                    | none => rfl
                    | some v8 =>
                      cases sigField fields with
                      | none => rfl
                      | some v9 =>
                        cases optF64Field fields "delay" with
                        | none => rfl
                        | some v10 =>
                          cases reqField fields "lonc" Json.asU32 with
                          | none => rfl
                          | some v11 =>
                            cases reqField fields "latc" Json.asU32 with
                            | none => rfl
                            | some v12 =>
                              rfl

/-- Witness for C8 (amended) at a concrete full strike object. -/
theorem strike_deserialize_iff_witness :
    wellFormedStrikeJson strikeFull = true ∧
      (LightningStrike.deserialize strikeFull).isSome = isStrikeJsonAmended strikeFull :=
  ⟨by decide, strike_deserialize_iff strikeFull (by decide)⟩

/-! ## Theorems: WebSocket manager and worker (C3, C4, C5, C6, C7, C10) -/

namespace WebSocketWorker

/-- C3: when the worker is Connected and the peer closes the connection (the
close frame is delivered, then the stream ends), the loop performs the same
transition as an explicit `Disconnect` command: the socket is dropped, the
state becomes Disconnected, and a connection-status envelope indicating
disconnection is emitted. -/
theorem peer_close_equals_disconnect (parse : String → Option WebSocketMessage)
    (st : WorkerState) (sock : Nat) (now : Nat) (h : st.connection = some sock) :
    handleStreamSeq parse st [.frame .close, .closed] now = handleCmd st .disconnect now ∧
      (handleStreamSeq parse st [.frame .close, .closed] now).1.connection = none ∧
      (handleStreamSeq parse st [.frame .close, .closed] now).2.1 =
        [connectionStatusDisconnected now] := by
  refine ⟨?_, ?_, ?_⟩ <;>
    simp [handleStreamSeq, handleStream, handle_incoming_message, handleCmd, disconnect, h]

/-- Witness for C3 at a concrete connected state. -/
theorem peer_close_equals_disconnect_witness :
    (WorkerState.mk (some 0)).connection = some 0 ∧
      (handleStreamSeq (fun _ => none) ⟨some 0⟩ [.frame .close, .closed] 0 =
          handleCmd ⟨some 0⟩ .disconnect 0 ∧
        (handleStreamSeq (fun _ => none) ⟨some 0⟩ [.frame .close, .closed] 0).1.connection =
          none ∧
        (handleStreamSeq (fun _ => none) ⟨some 0⟩ [.frame .close, .closed] 0).2.1 =
          [connectionStatusDisconnected 0]) :=
  ⟨rfl, peer_close_equals_disconnect (fun _ => none) ⟨some 0⟩ 0 0 rfl⟩

/-- C4: a text frame whose content does not parse as a structured
`WebSocketMessage` yields exactly one `raw_text` envelope whose payload is the
frame's text bytes unchanged; the state is untouched, nothing is written, and
handling is total (never crashes the loop). -/
theorem garbled_text_one_raw_envelope (parse : String → Option WebSocketMessage)
    (st : WorkerState) (t : String) (now : Nat) (h : parse t = none) :
    handle_incoming_message parse st (.text t) now =
      (st, [⟨"raw_text", .bytes t, now⟩], []) := by
  simp [handle_incoming_message, h]

/-- Witness for C4 at a concrete unparseable text frame. -/
theorem garbled_text_one_raw_envelope_witness :
    ((fun (_ : String) => (none : Option WebSocketMessage)) "garbage" = none) ∧
      handle_incoming_message (fun _ => none) ⟨none⟩ (.text "garbage") 7 =
        (⟨none⟩, [⟨"raw_text", .bytes "garbage", 7⟩], []) :=
  ⟨rfl, garbled_text_one_raw_envelope (fun _ => none) ⟨none⟩ "garbage" 7 rfl⟩

/-- C5: a `Connect` command whose handshake fails leaves a disconnected worker
disconnected (`connection` stays `None`), emits exactly one connection-status
envelope whose payload carries the (non-empty) error description, makes no
socket write, and produces nothing else — in particular no retry. -/
theorem connect_failure_reported_once (st : WorkerState) (url err : String) (now : Nat)
    (h1 : st.connection = none) (h2 : err ≠ "") :
    connect st url (.failure err) now = (st, [connectionStatusFailed err url now], []) ∧
      (connect st url (.failure err) now).1.connection = none ∧
      (connectionStatusFailed err url now).mtype = "connection_status" ∧
      payloadErrorField (connectionStatusFailed err url now) = some (.str err) ∧
      err ≠ "" := by
  refine ⟨rfl, h1, rfl, ?_, h2⟩
  simp [payloadErrorField, connectionStatusFailed, lookupField, List.find?]

/-- Witness for C5 at a concrete failed handshake. -/
theorem connect_failure_reported_once_witness :
    (WorkerState.mk none).connection = none ∧ "refused" ≠ "" ∧
      (connect ⟨none⟩ "wss://x" (.failure "refused") 3 =
          (⟨none⟩, [connectionStatusFailed "refused" "wss://x" 3], []) ∧
        (connect ⟨none⟩ "wss://x" (.failure "refused") 3).1.connection = none ∧
        (connectionStatusFailed "refused" "wss://x" 3).mtype = "connection_status" ∧
        payloadErrorField (connectionStatusFailed "refused" "wss://x" 3) =
          some (.str "refused") ∧
        "refused" ≠ "") :=
  ⟨rfl, by decide,
    connect_failure_reported_once ⟨none⟩ "wss://x" "refused" 3 rfl (by decide)⟩

theorem drainCmds_trace (st : WorkerState) (cmds : List CmdEvent) (now : Nat) :
    (drainCmds st cmds now).2.2.2 = cmds.map LoopEvent.appliedCmd := by
  induction cmds generalizing st with
  | nil => rfl
  | cons c rest ih => simp [drainCmds, ih]

/-- C6: in one iteration of the worker loop, every queued command is applied,
in FIFO order, before at most one inbound stream event is processed: the
iteration's scheduling trace is the command list (in order) followed by the
stream event — the latter only when the post-drain state still holds a
socket. -/
theorem run_iteration_commands_first (parse : String → Option WebSocketMessage)
    (st : WorkerState) (cmds : List CmdEvent) (ev : StreamEvent) (now : Nat) :
    (runIteration parse st cmds ev now).2.2.2 =
      cmds.map LoopEvent.appliedCmd ++
        (if (drainCmds st cmds now).1.connection.isSome then [LoopEvent.processedStream ev]
         else []) := by
  unfold runIteration
  cases hc : (drainCmds st cmds now).1.connection <;> simp [hc, drainCmds_trace]

/-- C10: a `Send` or `SendRaw` command processed while the worker is
Disconnected (`connection` is `None`) writes nothing to any socket, emits no
envelope, and leaves the state unchanged: the message is discarded, not
queued. -/
theorem send_while_disconnected_discards (st : WorkerState) (m : WebSocketMessage)
    (p : List Nat) (h : st.connection = none) :
    send_message st m = (st, [], []) ∧ send_raw st p = (st, [], []) := by
  constructor <;> simp [send_message, send_raw, h]

/-- Witness for C10 at a concrete disconnected state. -/
theorem send_while_disconnected_discards_witness :
    (WorkerState.mk none).connection = none ∧
      (send_message ⟨none⟩ ⟨"t", .bytes "x", 0⟩ = (⟨none⟩, [], []) ∧
        send_raw ⟨none⟩ [1, 2] = (⟨none⟩, [], [])) :=
  ⟨rfl, send_while_disconnected_discards ⟨none⟩ ⟨"t", .bytes "x", 0⟩ [1, 2] rfl⟩

end WebSocketWorker

/-- C7: no Manager operation synchronously surfaces an error: `connect`,
`disconnect`, `send_message` and `send_raw` enqueue on an open channel and
degrade to a logged no-op on a closed one (always returning unit to the
caller), and `try_recv_message` returns `none` — not an error — on an empty
or closed event channel. -/
theorem manager_never_surfaces_errors :
    (∀ url, WebSocketManager.connect none url = none) ∧
      (∀ q url, WebSocketManager.connect (some q) url = some (q ++ [.connect url])) ∧
      WebSocketManager.disconnect none = none ∧
      (∀ q, WebSocketManager.disconnect (some q) = some (q ++ [.disconnect])) ∧
      (∀ m, WebSocketManager.send_message none m = none) ∧
      (∀ q m, WebSocketManager.send_message (some q) m = some (q ++ [.send m])) ∧
      (∀ p, WebSocketManager.send_raw none p = none) ∧
      (∀ q p, WebSocketManager.send_raw (some q) p = some (q ++ [.sendRaw p])) ∧
      (WebSocketManager.try_recv_message none).1 = none ∧
      (WebSocketManager.try_recv_message (some [])).1 = none :=
  ⟨fun _ => rfl, fun _ _ => rfl, rfl, fun _ => rfl, fun _ => rfl, fun _ _ => rfl,
    fun _ => rfl, fun _ _ => rfl, rfl, rfl⟩
